import Mathlib

/-!
Verification of the NSF award-data schema model (`make_db.py`).

The source is a declarative SQLAlchemy schema: fifteen entity classes with
typed columns, uniqueness/nullability constraints, foreign keys carrying
explicit deletion policies, plus a `MixinHelper` that derives each table
name from the class name, a derived `Person.full_name` property, and a
`main` that materializes all tables (`Base.metadata.create_all`).

We embed:
  * the table-name derivation (the two regex substitution passes of
    `MixinHelper.__tablename__`, lines 14-18) as an executable function
    on character lists;
  * the declared columns of all fifteen tables (types, primary keys,
    foreign keys with their `ondelete` policies, `nullable=False` flags,
    `unique=True` flags) as a data table `schemaColumns`;
  * database states as lists of typed rows, with the deletion operations
    induced by the declared policies (and, where the declarations leave
    gaps, by SQLAlchemy's documented relationship handling, noted at each
    clause);
  * the `Enum` check on `Role.role`, the SQL `UNIQUE` check on nullable
    columns, and the `create_all` (check-first) materialization step.
-/

namespace NsfAwardData

/-! ## Naming convention (`MixinHelper.__tablename__`, make_db.py lines 14-18)

Python:
  s1 = re.sub('(.)([A-Z][a-z]+)', r'\1_\2', cls.__name__)
  return re.sub('([a-z0-9])([A-Z])', r'\1_\2', s1).lower()
-/

def isUpperAZ (c : Char) : Bool := 'A' ≤ c && c ≤ 'Z'

def isLowerAZ (c : Char) : Bool := 'a' ≤ c && c ≤ 'z'

def isLowerOrDigit (c : Char) : Bool := isLowerAZ c || ('0' ≤ c && c ≤ '9')

/-- First pass: `re.sub('(.)([A-Z][a-z]+)', r'\1_\2', s)`.
Scans left to right; at each position tries to match one arbitrary
character (`.`, anything but a newline), an ASCII uppercase letter, and a
maximal nonempty run of ASCII lowercase letters; a match is rewritten with
an underscore between the first character and the uppercase letter, and
scanning resumes after the whole match (matches do not overlap). Fuel is
the input length: every step consumes at least one character. -/
def camelSub1 : Nat → List Char → List Char
  | 0, cs => cs
  | _ + 1, [] => []
  | fuel + 1, c :: cs =>
    match cs with
    | u :: l :: rest =>
      if c ≠ '\n' && isUpperAZ u && isLowerAZ l then
        c :: '_' :: u ::
          ((l :: rest).takeWhile isLowerAZ ++
            camelSub1 fuel ((l :: rest).dropWhile isLowerAZ))
      else c :: camelSub1 fuel cs
    | _ => c :: camelSub1 fuel cs

/-- Second pass: `re.sub('([a-z0-9])([A-Z])', r'\1_\2', s)`.
Matches an ASCII lowercase letter or digit immediately followed by an ASCII
uppercase letter; inserts an underscore between them; scanning resumes
after the uppercase letter. -/
def camelSub2 : List Char → List Char
  | [] => []
  | [c] => [c]
  | c :: u :: rest =>
    if isLowerOrDigit c && isUpperAZ u then c :: '_' :: u :: camelSub2 rest
    else c :: camelSub2 (u :: rest)

/-- `str.lower()` on the ASCII letters occurring in class names. -/
def asciiLower (c : Char) : Char :=
  if isUpperAZ c then Char.ofNat (c.toNat + 32) else c

/-- `MixinHelper.__tablename__`: both regex passes, then lowercase. -/
def tablename (name : String) : String :=
  String.mk ((camelSub2 (camelSub1 name.toList.length name.toList)).map asciiLower)

/-- The fifteen entity class names, in source order (make_db.py lines 27-196). -/
def entityNames : List String :=
  ["Directorate", "Division", "Program", "RelatedPrograms", "Award",
   "Publication", "State", "Country", "Address", "Institution",
   "Funding", "Person", "Author", "Affiliation", "Role"]

def schemaTableNames : List String := entityNames.map tablename

/-! ## Declared columns

One entry per `Column(...)` call in make_db.py, in source order. `fk` is
the `ForeignKey` target when present and `onDelete` its `ondelete=`
argument; `primaryKey`, `notNullDeclared` and `unique` record the
`primary_key=True`, `nullable=False` and `unique=True` keyword arguments
as written in the source. -/

structure ColumnSpec where
  table : String
  col : String
  ty : String
  fk : Option String := none
  onDelete : Option String := none
  primaryKey : Bool := false
  notNullDeclared : Bool := false
  unique : Bool := false
deriving DecidableEq, Repr

def schemaColumns : List ColumnSpec :=
  [ -- Directorate (lines 27-31)
    { table := "directorate", col := "id", ty := "Integer", primaryKey := true },
    { table := "directorate", col := "code", ty := "CHAR(4)", unique := true },
    { table := "directorate", col := "name", ty := "String(80)", notNullDeclared := true },
    { table := "directorate", col := "phone", ty := "String(15)", unique := true },
    -- Division (lines 37-42)
    { table := "division", col := "id", ty := "Integer", primaryKey := true },
    { table := "division", col := "code", ty := "CHAR(4)", unique := true },
    { table := "division", col := "name", ty := "String(80)", notNullDeclared := true },
    { table := "division", col := "phone", ty := "String(15)", unique := true },
    { table := "division", col := "dir_id", ty := "Integer",
      fk := some "directorate.id", onDelete := some "CASCADE" },
    -- Program (lines 48-52)
    { table := "program", col := "id", ty := "Integer", primaryKey := true },
    { table := "program", col := "code", ty := "CHAR(4)", unique := true },
    { table := "program", col := "name", ty := "String(80)" },
    { table := "program", col := "div_id", ty := "CHAR(4)",
      fk := some "division.id", onDelete := some "CASCADE" },
    -- RelatedPrograms (lines 57-65)
    { table := "related_programs", col := "pgm1_code", ty := "Integer",
      fk := some "program.id", onDelete := some "CASCADE", primaryKey := true },
    { table := "related_programs", col := "pgm2_code", ty := "Integer",
      fk := some "program.id", onDelete := some "CASCADE", primaryKey := true },
    -- Award (lines 68-78)
    { table := "award", col := "id", ty := "Integer", primaryKey := true },
    { table := "award", col := "title", ty := "String(100)" },
    { table := "award", col := "abstract", ty := "Text" },
    { table := "award", col := "effective", ty := "DATETIME" },
    { table := "award", col := "expires", ty := "DATETIME" },
    { table := "award", col := "first_amended", ty := "DATETIME" },
    { table := "award", col := "last_amended", ty := "DATETIME" },
    { table := "award", col := "amount", ty := "Integer" },
    { table := "award", col := "arra_amount", ty := "Integer" },
    { table := "award", col := "instrument", ty := "String(100)" },
    -- Publication (lines 87-96)
    { table := "publication", col := "id", ty := "Integer", primaryKey := true },
    { table := "publication", col := "title", ty := "String(255)", notNullDeclared := true },
    { table := "publication", col := "abstract", ty := "Text" },
    { table := "publication", col := "journal", ty := "String(255)" },
    { table := "publication", col := "volume", ty := "String(10)" },
    { table := "publication", col := "pages", ty := "String(30)" },
    { table := "publication", col := "year", ty := "Integer" },
    { table := "publication", col := "uri", ty := "String(255)" },
    { table := "publication", col := "award_id", ty := "Integer",
      fk := some "award.id", onDelete := some "SET NULL" },
    -- State (lines 99-101)
    { table := "state", col := "abbr", ty := "CHAR(2)", primaryKey := true },
    { table := "state", col := "name", ty := "String(14)",
      notNullDeclared := true, unique := true },
    -- Country (lines 104-108)
    { table := "country", col := "id", ty := "Integer", primaryKey := true },
    { table := "country", col := "alpha2", ty := "CHAR(2)",
      notNullDeclared := true, unique := true },
    { table := "country", col := "alpha3", ty := "CHAR(3)",
      notNullDeclared := true, unique := true },
    { table := "country", col := "name", ty := "String(100)", notNullDeclared := true },
    -- Address (lines 111-121)
    { table := "address", col := "id", ty := "Integer", primaryKey := true },
    { table := "address", col := "unit", ty := "String(20)" },
    { table := "address", col := "bldg", ty := "String(50)" },
    { table := "address", col := "street", ty := "String(50)" },
    { table := "address", col := "city", ty := "String(50)" },
    { table := "address", col := "state", ty := "CHAR(2)", fk := some "state.abbr" },
    { table := "address", col := "country", ty := "CHAR(2)", fk := some "country.alpha2" },
    { table := "address", col := "zipcode", ty := "String(10)" },
    { table := "address", col := "lat", ty := "FLOAT" },
    { table := "address", col := "lon", ty := "FLOAT" },
    -- Institution (lines 124-128)
    { table := "institution", col := "id", ty := "Integer", primaryKey := true },
    { table := "institution", col := "name", ty := "String(100)", notNullDeclared := true },
    { table := "institution", col := "phone", ty := "String(15)", unique := true },
    { table := "institution", col := "address_id", ty := "Integer",
      fk := some "address.id", onDelete := some "SET NULL" },
    -- Funding (lines 132-134): note that neither foreign key declares an
    -- ondelete action, unlike every other association table.
    { table := "funding", col := "award_id", ty := "Integer",
      fk := some "award.id", primaryKey := true },
    { table := "funding", col := "pgm_id", ty := "CHAR(4)",
      fk := some "program.id", primaryKey := true },
    -- Person (lines 137-142)
    { table := "person", col := "id", ty := "Integer", primaryKey := true },
    { table := "person", col := "fname", ty := "String(50)", notNullDeclared := true },
    { table := "person", col := "lname", ty := "String(50)", notNullDeclared := true },
    { table := "person", col := "middle_init", ty := "CHAR(1)" },
    { table := "person", col := "email", ty := "String(100)", unique := true },
    -- Author (lines 159-167)
    { table := "author", col := "person_id", ty := "Integer",
      fk := some "person.id", onDelete := some "CASCADE", primaryKey := true },
    { table := "author", col := "pub_id", ty := "Integer",
      fk := some "publication.id", onDelete := some "CASCADE", primaryKey := true },
    -- Affiliation (lines 170-182)
    { table := "affiliation", col := "award_id", ty := "Integer",
      fk := some "award.id", onDelete := some "CASCADE", primaryKey := true },
    { table := "affiliation", col := "person_id", ty := "Integer",
      fk := some "person.id", onDelete := some "CASCADE", primaryKey := true },
    { table := "affiliation", col := "institution_id", ty := "Integer",
      fk := some "institution.id", onDelete := some "CASCADE", primaryKey := true },
    -- Role (lines 185-196)
    { table := "role", col := "award_id", ty := "Integer",
      fk := some "award.id", onDelete := some "CASCADE", primaryKey := true },
    { table := "role", col := "person_id", ty := "Integer",
      fk := some "person.id", onDelete := some "CASCADE", primaryKey := true },
    { table := "role", col := "role", ty := "Enum" },
    { table := "role", col := "start", ty := "DATETIME" },
    { table := "role", col := "end", ty := "DATETIME" } ]

/-- A column admits NULL iff neither `nullable=False` is declared nor the
column is (part of) the primary key: SQLAlchemy's `Column` defaults
`nullable` to `True` except for primary-key columns, where it defaults to
`False`, and primary-key columns are NOT NULL in the emitted DDL. -/
def nullableEffective (c : ColumnSpec) : Bool :=
  !(c.notNullDeclared || c.primaryKey)

/-! ## Row types

One structure per table that a claim's operation touches, with every
declared column. Nullable columns are `Option`; `DATETIME` values are kept
abstract as strings; integer primary keys and foreign keys are `Nat`.
`Program.div_id` and `Funding.pgm_id` are declared `CHAR(4)` in the source
although they reference the `Integer` columns `division.id` and
`program.id`; SQLite's dynamic typing stores the referenced integer there,
so both are modelled as the referenced `Nat`. -/

structure Directorate where
  id : Nat
  code : Option String
  name : String
  phone : Option String
deriving DecidableEq, Repr

structure Division where
  id : Nat
  code : Option String
  name : String
  phone : Option String
  dir_id : Option Nat
deriving DecidableEq, Repr

structure Program where
  id : Nat
  code : Option String
  name : Option String
  div_id : Option Nat
deriving DecidableEq, Repr

structure RelatedPrograms where
  pgm1_code : Nat
  pgm2_code : Nat
deriving DecidableEq, Repr

structure Award where
  id : Nat
  title : Option String
  abstract : Option String
  effective : Option String
  expires : Option String
  first_amended : Option String
  last_amended : Option String
  amount : Option Int
  arra_amount : Option Int
  instrument : Option String
deriving DecidableEq, Repr

structure Publication where
  id : Nat
  title : String
  abstract : Option String
  journal : Option String
  volume : Option String
  pages : Option String
  year : Option Int
  uri : Option String
  award_id : Option Nat
deriving DecidableEq, Repr

structure Funding where
  award_id : Nat
  pgm_id : Nat
deriving DecidableEq, Repr

structure Person where
  id : Nat
  fname : String
  lname : String
  middle_init : Option String
  email : Option String
deriving DecidableEq, Repr

structure Author where
  person_id : Nat
  pub_id : Nat
deriving DecidableEq, Repr

structure Affiliation where
  award_id : Nat
  person_id : Nat
  institution_id : Nat
deriving DecidableEq, Repr

structure Role where
  award_id : Nat
  person_id : Nat
  role : Option String
  start : Option String
  «end» : Option String
deriving DecidableEq, Repr

/-- `Person.full_name` (make_db.py lines 151-156): branches on the middle
initial being `None`, Python's `'{} {}. {}'.format` otherwise. -/
def Person.full_name (p : Person) : String :=
  match p.middle_init with
  | some m => p.fname ++ " " ++ m ++ ". " ++ p.lname
  | none => p.fname ++ " " ++ p.lname

/-- A database state: the live rows of each table whose deletion or insert
semantics the properties below mention. -/
structure DB where
  directorates : List Directorate
  divisions : List Division
  programs : List Program
  relatedPrograms : List RelatedPrograms
  awards : List Award
  publications : List Publication
  fundings : List Funding
  persons : List Person
  authors : List Author
  affiliations : List Affiliation
  roles : List Role
deriving DecidableEq, Repr

/-! ## Deletion semantics -/

/-- Deleting an Award through the ORM session. Each clause records the
declaration that induces it:
  * `publication.award_id` declares `ondelete='SET NULL'` (line 96), and
    the `Award.publications` relationship (lines 79-80) declares no delete
    cascade, so the ORM disassociates publications by nulling the foreign
    key: the rows survive with `award_id = None`;
  * `affiliation.award_id` declares `ondelete='CASCADE'` (lines 171-174),
    and `Award.institutions` uses `secondary='affiliation'` (lines 81-82):
    the association rows for the award are deleted;
  * `funding.award_id` declares no ondelete action (line 133), but
    `Award.funding_programs` uses `secondary='funding'` without
    `passive_deletes` (lines 83-84), so on a session delete of the award
    the ORM deletes the rows of the secondary table that reference it;
  * `role.award_id` declares `ondelete='CASCADE'` (lines 186-189), and
    `Person.roles` uses `secondary='role'` with backref on Award
    (lines 144-145): the role rows for the award are deleted. -/
def deleteAward (aid : Nat) (db : DB) : DB :=
  { db with
    awards := db.awards.filter (fun a => a.id != aid),
    publications := db.publications.map
      (fun p => if p.award_id = some aid then { p with award_id := none } else p),
    affiliations := db.affiliations.filter (fun x => x.award_id != aid),
    fundings := db.fundings.filter (fun f => f.award_id != aid),
    roles := db.roles.filter (fun r => r.award_id != aid) }

/-- Deleting a Directorate. `Directorate.divisions` and `Division.programs`
declare `cascade='all, delete-orphan', passive_deletes=True`
(lines 32-34, 43-45), so the ORM emits a single delete and relies on the
declared database-level actions: `division.dir_id` and `program.div_id`
declare `ondelete='CASCADE'` (lines 42, 52), cascading to the divisions of
the directorate and the programs of those divisions; both
`related_programs` foreign keys declare `ondelete='CASCADE'`
(lines 58-65), deleting the link rows of deleted programs. `funding.pgm_id`
declares no ondelete action (line 134) and, the programs being deleted
passively at the database level, the ORM never visits them either, so
funding rows referencing a deleted program are left in place (dangling).
`affiliation`, `role` and `author` carry no program reference. -/
def deleteDirectorate (did : Nat) (db : DB) : DB :=
  let deadDivs := (db.divisions.filter (fun d => d.dir_id == some did)).map (·.id)
  let isDeadPgm := fun (p : Program) =>
    match p.div_id with
    | some d => deadDivs.contains d
    | none => false
  let deadPgms := (db.programs.filter isDeadPgm).map (·.id)
  { db with
    directorates := db.directorates.filter (fun d => d.id != did),
    divisions := db.divisions.filter (fun d => d.dir_id != some did),
    programs := db.programs.filter (fun p => !isDeadPgm p),
    relatedPrograms := db.relatedPrograms.filter
      (fun r => !deadPgms.contains r.pgm1_code && !deadPgms.contains r.pgm2_code) }

/-! ## Write-time constraint checks -/

inductive InsertError where
  | UniquenessViolation
  | RequiredFieldMissing
  | InvalidEnumValue
  | DanglingReference
deriving DecidableEq, Repr

/-- The values of `Enum('pi', 'co-pi', 'po', 'co-po')` on `Role.role`
(make_db.py line 194). -/
def roleEnumValues : List String := ["pi", "co-pi", "po", "co-po"]

/-- Inserting a Role row, checking the declared `Enum` constraint on
`role` (line 194; the column is nullable, so `None` passes). Other
declared constraints (composite-key uniqueness, foreign keys) are checked
by the backend independently of the enum and are not part of this check. -/
def insertRole (db : DB) (r : Role) : Except InsertError DB :=
  match r.role with
  | none => Except.ok { db with roles := db.roles ++ [r] }
  | some v =>
      if roleEnumValues.contains v then
        Except.ok { db with roles := db.roles ++ [r] }
      else
        Except.error InsertError.InvalidEnumValue

/-- SQL `UNIQUE` on a nullable column, as enforced by the target backend
(SQLite, `main` line 201) and the SQL standard: the non-NULL values of the
column must be pairwise distinct across live rows; NULLs never conflict. -/
def uniqueColumnOk (vals : List (Option String)) : Prop :=
  vals.reduceOption.Nodup

instance (vals : List (Option String)) : Decidable (uniqueColumnOk vals) :=
  inferInstanceAs (Decidable vals.reduceOption.Nodup)

/-! ## Schema materialization (`main`, make_db.py lines 199-203)

`Base.metadata.create_all(engine)` emits, for each mapped table, a
`CREATE TABLE` guarded by an existence check (`checkfirst=True`, the
default): a table already present is skipped, never re-created. -/

/-- An unguarded `CREATE TABLE`: errors when the object already exists. -/
def createTable (st : List String) (t : String) : Except String (List String) :=
  if st.contains t then Except.error (t ++ " already exists")
  else Except.ok (st ++ [t])

/-- `create_all` with `checkfirst=True`: each table is created only when
absent, so an existing matching object is skipped rather than re-created. -/
def createAll (tables : List String) (st : List String) : Except String (List String) :=
  tables.foldlM
    (fun s t => if s.contains t then Except.ok s else createTable s t)
    st

/-- The empty database state. -/
def emptyDB : DB := ⟨[], [], [], [], [], [], [], [], [], [], []⟩

/-- A state with one award (id 1) referenced by a publication, an
affiliation, a funding row and a role row. -/
def dbAwardOne : DB :=
  { directorates := [], divisions := [], programs := [], relatedPrograms := [],
    awards := [⟨1, some "T", none, none, none, none, none, some 10, none, none⟩],
    publications := [⟨5, "On Things", none, none, none, none, none, none, some 1⟩],
    fundings := [⟨1, 4⟩],
    persons := [], authors := [],
    affiliations := [⟨1, 2, 3⟩],
    roles := [⟨1, 2, some "pi", none, none⟩] }

/-- A state with Directorate 1 ← Division 2 ← Program 3, and a Funding row
linking Award 4 to Program 3. -/
def dbOrphan : DB :=
  { directorates := [⟨1, some "CSE", "CISE", none⟩],
    divisions := [⟨2, some "IIS", "IIS", none, some 1⟩],
    programs := [⟨3, some "HCC", some "HCC", some 2⟩],
    relatedPrograms := [],
    awards := [⟨4, none, none, none, none, none, none, none, none, none⟩],
    publications := [],
    fundings := [⟨4, 3⟩],
    persons := [], authors := [], affiliations := [], roles := [] }

/-! ## Theorems -/

/-- C3: the naming-convention transform (the two-pass underscore insertion
followed by lowercasing) maps "RelatedPrograms" to "related_programs",
"Institution" to "institution", and "State" to "state". -/
theorem tablename_examples :
    tablename "RelatedPrograms" = "related_programs" ∧
    tablename "Institution" = "institution" ∧
    tablename "State" = "state" := by
  decide

/-- C7: applied to the fifteen entity type names, the naming-convention
transform produces fifteen pairwise-distinct storage identifiers. -/
theorem tablename_injective_on_entities :
    entityNames.length = 15 ∧ (entityNames.map tablename).Nodup := by
  decide

/-- C8: materializing the full schema twice against the same initially
empty target errors on neither run and yields the same set of storage
objects after the second run as after the first. -/
theorem createAll_idempotent :
    createAll schemaTableNames [] = Except.ok schemaTableNames ∧
    createAll schemaTableNames schemaTableNames = Except.ok schemaTableNames :=
  ⟨rfl, rfl⟩

/-- C5: the derived full name is first name, middle initial followed by a
period, and last name, space-separated, when a middle initial is present,
and first name followed by last name otherwise; in particular Ada Q
Lovelace yields "Ada Q. Lovelace" and Ada Lovelace without a middle
initial yields "Ada Lovelace". -/
theorem full_name_formats (p : Person) :
    (∀ m, p.middle_init = some m →
      p.full_name = p.fname ++ " " ++ m ++ ". " ++ p.lname) ∧
    (p.middle_init = none → p.full_name = p.fname ++ " " ++ p.lname) ∧
    Person.full_name ⟨0, "Ada", "Lovelace", some "Q", none⟩ = "Ada Q. Lovelace" ∧
    Person.full_name ⟨0, "Ada", "Lovelace", none, none⟩ = "Ada Lovelace" := by
  refine ⟨?_, ?_, by decide, by decide⟩
  · intro m hm
    simp [Person.full_name, hm]
  · intro hm
    simp [Person.full_name, hm]

theorem full_name_formats_witness :
    Person.full_name ⟨0, "Ada", "Lovelace", some "Q", none⟩ =
      "Ada" ++ " " ++ "Q" ++ ". " ++ "Lovelace" :=
  (full_name_formats ⟨0, "Ada", "Lovelace", some "Q", none⟩).1 "Q" rfl

/-- C10: the full-name derivation branches on the middle initial being
null, not on it being non-empty: any non-null `middle_init`, the empty
string included, produces the three-part form, and only a null
`middle_init` takes the two-part branch. -/
theorem full_name_null_branch (p : Person) :
    (p.middle_init ≠ none →
      p.full_name = p.fname ++ " " ++ p.middle_init.getD "" ++ ". " ++ p.lname) ∧
    (p.middle_init = none → p.full_name = p.fname ++ " " ++ p.lname) ∧
    Person.full_name ⟨0, "Ada", "Lovelace", some "", none⟩ = "Ada . Lovelace" := by
  refine ⟨?_, ?_, by decide⟩
  · intro hm
    cases h : p.middle_init with
    | none => exact absurd h hm
    | some m => simp [Person.full_name, h]
  · intro hm
    simp [Person.full_name, hm]

theorem full_name_null_branch_witness :
    Person.full_name ⟨0, "Ada", "Lovelace", some "", none⟩ =
      "Ada" ++ " " ++ (some "" : Option String).getD "" ++ ". " ++ "Lovelace" :=
  (full_name_null_branch ⟨0, "Ada", "Lovelace", some "", none⟩).1 (by decide)

/-- C2 counterexample: the long-form value "principal-investigator", which
the claim says is accepted, is outside `Enum('pi', 'co-pi', 'po', 'co-po')`
and is rejected with InvalidEnumValue. -/
theorem role_longform_rejected :
    insertRole emptyDB ⟨1, 1, some "principal-investigator", none, none⟩ =
      Except.error InsertError.InvalidEnumValue ∧
    roleEnumValues.contains "principal-investigator" = false :=
  ⟨rfl, rfl⟩

/-- C2 (amended): `Role.role` admits exactly the four enumerated values
"pi", "co-pi", "po" and "co-po": an insert whose role value lies in that
set is accepted and any value outside it is rejected with
InvalidEnumValue. -/
theorem role_enum_check (db : DB) (r : Role) (v : String) (hv : r.role = some v) :
    (v ∈ roleEnumValues →
      insertRole db r = Except.ok { db with roles := db.roles ++ [r] }) ∧
    (v ∉ roleEnumValues →
      insertRole db r = Except.error InsertError.InvalidEnumValue) := by
  constructor
  · intro h
    simp [insertRole, hv, h]
  · intro h
    simp [insertRole, hv, h]

theorem role_enum_check_witness :
    insertRole emptyDB ⟨1, 1, some "pi", none, none⟩ =
      Except.ok { emptyDB with
                  roles := emptyDB.roles ++ [⟨1, 1, some "pi", none, none⟩] } :=
  (role_enum_check emptyDB ⟨1, 1, some "pi", none, none⟩ "pi" rfl).1 (by decide)

/-- C6 counterexample: not every foreign-key column admits null — the
composite-primary-key foreign keys (here `funding.award_id`, likewise the
Author, Affiliation, Role and RelatedPrograms keys) are implicitly
NOT NULL, so such a row cannot be created with the reference absent. -/
theorem fk_nullability_counterexample :
    ¬ (∀ c ∈ schemaColumns, c.fk.isSome = true → nullableEffective c = true) := by
  decide

/-- C6 (amended): no foreign-key column carries an explicit
`nullable=False` declaration, and every foreign-key column outside a
primary key admits null, so the reference is optional at creation time;
foreign keys that are part of a composite primary key are implicitly
non-nullable. -/
theorem fk_nullability :
    ∀ c ∈ schemaColumns, c.fk.isSome = true →
      c.notNullDeclared = false ∧
      (c.primaryKey = false → nullableEffective c = true) := by
  decide

theorem fk_nullability_witness :
    ({ table := "division", col := "dir_id", ty := "Integer",
       fk := some "directorate.id", onDelete := some "CASCADE" } :
        ColumnSpec).notNullDeclared = false ∧
    (({ table := "division", col := "dir_id", ty := "Integer",
        fk := some "directorate.id", onDelete := some "CASCADE" } :
         ColumnSpec).primaryKey = false →
      nullableEffective
        { table := "division", col := "dir_id", ty := "Integer",
          fk := some "directorate.id", onDelete := some "CASCADE" } = true) :=
  fk_nullability
    { table := "division", col := "dir_id", ty := "Integer",
      fk := some "directorate.id", onDelete := some "CASCADE" }
    (by decide) (by decide)

/-- C9: each of the unique-constrained nullable columns (the Directorate,
Division and Program codes, the Directorate, Division and Institution
phones, and the Person email) is declared `unique=True` without
`nullable=False`; under the backend's UNIQUE semantics any number of live
rows may hold null in such a column simultaneously, while two rows with
the same non-null value are rejected. -/
theorem unique_nullable_null_exempt :
    (∀ c ∈ schemaColumns,
      (c.table, c.col) ∈
        ([("directorate", "code"), ("division", "code"), ("program", "code"),
          ("directorate", "phone"), ("division", "phone"),
          ("institution", "phone"), ("person", "email")] :
          List (String × String)) →
      c.unique = true ∧ nullableEffective c = true) ∧
    (∀ n : Nat, uniqueColumnOk (List.replicate n none)) ∧
    (∀ (s : String) (l₁ l₂ l₃ : List (Option String)),
      ¬ uniqueColumnOk (l₁ ++ some s :: l₂ ++ some s :: l₃)) := by
  refine ⟨by decide, ?_, ?_⟩
  · intro n
    have h : (List.replicate n (none : Option String)).reduceOption = [] := by
      induction n with
      | zero => rfl
      | succ k ih => simpa [List.replicate_succ, List.reduceOption_cons_of_none] using ih
    unfold uniqueColumnOk
    rw [h]
    exact List.nodup_nil
  · intro s l₁ l₂ l₃ h
    simp only [uniqueColumnOk, List.reduceOption_append,
      List.reduceOption_cons_of_some] at h
    rw [List.nodup_append] at h
    exact h.2.2 (List.mem_append_right _ (List.mem_cons_self _ _))
      (List.mem_cons_self _ _)

theorem unique_nullable_null_exempt_witness :
    (({ table := "person", col := "email", ty := "String(100)", unique := true } :
        ColumnSpec).unique = true ∧
      nullableEffective
        { table := "person", col := "email", ty := "String(100)",
          unique := true } = true) ∧
    uniqueColumnOk (List.replicate 3 none) ∧
    ¬ uniqueColumnOk ([] ++ some "a" :: [] ++ some "a" :: []) :=
  ⟨unique_nullable_null_exempt.1
      { table := "person", col := "email", ty := "String(100)", unique := true }
      (by decide) (by decide),
    unique_nullable_null_exempt.2.1 3,
    unique_nullable_null_exempt.2.2 "a" [] [] []⟩

/-- C1: deleting an Award nulls the `award_id` of every Publication that
referenced it while the Publication row survives (same `id` still live),
and removes every Affiliation, Funding and Role row whose `award_id`
referenced it (no such row remains; rows not referencing it survive). -/
theorem deleteAward_semantics (db : DB) (aid : Nat) :
    (∀ p ∈ db.publications, p.award_id = some aid →
      { p with award_id := none } ∈ (deleteAward aid db).publications) ∧
    (∀ p ∈ db.publications, ∃ q ∈ (deleteAward aid db).publications, q.id = p.id) ∧
    (∀ x ∈ (deleteAward aid db).affiliations, x.award_id ≠ aid) ∧
    (∀ x ∈ db.affiliations, x.award_id ≠ aid → x ∈ (deleteAward aid db).affiliations) ∧
    (∀ f ∈ (deleteAward aid db).fundings, f.award_id ≠ aid) ∧
    (∀ f ∈ db.fundings, f.award_id ≠ aid → f ∈ (deleteAward aid db).fundings) ∧
    (∀ r ∈ (deleteAward aid db).roles, r.award_id ≠ aid) ∧
    (∀ r ∈ db.roles, r.award_id ≠ aid → r ∈ (deleteAward aid db).roles) := by
  refine ⟨?_, ?_, ?_, ?_, ?_, ?_, ?_, ?_⟩
  · intro p hp h
    simp only [deleteAward, List.mem_map]
    exact ⟨p, hp, by rw [if_pos h]⟩
  · intro p hp
    refine ⟨if p.award_id = some aid then { p with award_id := none } else p, ?_, ?_⟩
    · simp only [deleteAward, List.mem_map]
      exact ⟨p, hp, rfl⟩
    · by_cases h : p.award_id = some aid <;> simp [h]
  · intro x hx
    simp only [deleteAward, List.mem_filter, bne_iff_ne] at hx
    exact hx.2
  · intro x hx h
    simp only [deleteAward, List.mem_filter, bne_iff_ne]
    exact ⟨hx, h⟩
  · intro f hf
    simp only [deleteAward, List.mem_filter, bne_iff_ne] at hf
    exact hf.2
  · intro f hf h
    simp only [deleteAward, List.mem_filter, bne_iff_ne]
    exact ⟨hf, h⟩
  · intro r hr
    simp only [deleteAward, List.mem_filter, bne_iff_ne] at hr
    exact hr.2
  · intro r hr h
    simp only [deleteAward, List.mem_filter, bne_iff_ne]
    exact ⟨hr, h⟩

theorem deleteAward_semantics_witness :
    (⟨5, "On Things", none, none, none, none, none, none, none⟩ : Publication) ∈
      (deleteAward 1 dbAwardOne).publications :=
  (deleteAward_semantics dbAwardOne 1).1
    ⟨5, "On Things", none, none, none, none, none, none, some 1⟩
    (by decide) rfl

/-- C4: deleting Directorate 1 does cascade away its Division and that
Division's Program, but the Funding row referencing the deleted Program
survives as an orphan: `funding.pgm_id` (make_db.py line 134) declares no
`ondelete` action, unlike every other association table, so neither the
database-level cascade that removes the programs nor the ORM (which, the
program deletions being passive, never visits them) touches the funding
table. This contradicts the claim that Funding rows referencing deleted
Programs are deleted and that no orphan row persists. -/
theorem deleteDirectorate_funding_orphan :
    (deleteDirectorate 1 dbOrphan).divisions = [] ∧
    (deleteDirectorate 1 dbOrphan).programs = [] ∧
    (deleteDirectorate 1 dbOrphan).relatedPrograms = [] ∧
    (deleteDirectorate 1 dbOrphan).fundings = [⟨4, 3⟩] := by
  decide

end NsfAwardData
